import Mathlib

/-!
Verification development for the wiredb log-structured key/value store.

The Go sources are shallowly embedded: byte strings (Go `[]byte` / `string`)
become `List Nat` of byte values, machine integers become `Nat`/`Int` with
explicit `% 2 ^ w` where the Go code performs a narrowing conversion, the
ambient wall clock (`time.Now().UnixNano()`) becomes an explicit `now : Nat`
parameter, and fallible Go functions return `Except`/`Option`.

The msgpack library is external to the repository; it is modelled by a
concrete self-delimiting stand-in codec per payload type (an injective
encoder together with a partial decoder), since the engine treats payloads
as opaque bytes.
-/

namespace WireDB

/-- Byte strings: Go `[]byte` and `string` values, one `Nat` per byte. -/
abbrev Bytes := List Nat

/-! ## types package: the six typed payload objects (src/types) -/

/-- Go `types.Set`: `Set map[string]bool`, `TTL uint64`.  The map is modelled
as an association list. -/
structure Set where
  Set : List (Bytes × Bool)
  TTL : Nat
deriving DecidableEq

/-- Go `types.ZSet`: `ZSet map[string]float64`, `TTL uint64`, unexported
`sortedScores []string`.  A float64 score is modelled by its 64-bit pattern. -/
structure ZSet where
  ZSet : List (Bytes × Nat)
  TTL : Nat
  sortedScores : List Bytes
deriving DecidableEq

/-- Go `types.Text`: `Content string`, `TTL uint64`. -/
structure Text where
  Content : Bytes
  TTL : Nat
deriving DecidableEq

/-- Go `types.Table`: `Table map[string]any`, `TTL uint64`.  The dynamic
`any` values are opaque to the engine and modelled as byte strings. -/
structure Table where
  Table : List (Bytes × Bytes)
  TTL : Nat
deriving DecidableEq

/-- Go `types.Number`: `Value int64`, `TTL uint64`. -/
structure Number where
  Value : Int
  TTL : Nat
deriving DecidableEq

/-- Go `types.Collection`: `Collection []any`, `TTL uint64`; items opaque. -/
structure Collection where
  Collection : List Bytes
  TTL : Nat
deriving DecidableEq

/-- Go `types.NewSet`: fresh set with an empty map (zero-value TTL). -/
def NewSet : Set := { Set := [], TTL := 0 }

/-- Go `types.NewZSet`: fresh sorted set, empty map and empty score list. -/
def NewZSet : ZSet := { ZSet := [], TTL := 0, sortedScores := [] }

/-- Go `types.NewText(content)`: fresh text value (zero-value TTL). -/
def NewText (content : Bytes) : Text := { Content := content, TTL := 0 }

/-- Go `types.NewTable`: fresh table with an empty map. -/
def NewTable : Table := { Table := [], TTL := 0 }

/-- Go `types.NewNumber(num)`: fresh number (zero-value TTL). -/
def NewNumber (num : Int) : Number := { Value := num, TTL := 0 }

/-- Go `types.NewCollection`: zero value, empty item list. -/
def NewCollection : Collection := { Collection := [], TTL := 0 }

/-- Go `(*Set).Clear`: sets TTL to 0 and replaces the map by a fresh one. -/
def Set.Clear (_ : WireDB.Set) : WireDB.Set := { Set := [], TTL := 0 }

/-- Go `(*ZSet).Clear`: sets TTL to 0, fresh map, fresh score slice. -/
def ZSet.Clear (_ : WireDB.ZSet) : WireDB.ZSet := { ZSet := [], TTL := 0, sortedScores := [] }

/-- Go `(*Text).Clear`: sets TTL to 0 and empties the content. -/
def Text.Clear (_ : WireDB.Text) : WireDB.Text := { Content := [], TTL := 0 }

/-- Go `(*Table).Clear`: sets TTL to 0 and replaces the map by a fresh one. -/
def Table.Clear (_ : WireDB.Table) : WireDB.Table := { Table := [], TTL := 0 }

/-- Go `(*Number).Clear`: sets TTL to 0 and the value to 0. -/
def Number.Clear (_ : WireDB.Number) : WireDB.Number := { Value := 0, TTL := 0 }

/-- Go `(*Collection).Clear`: sets TTL to 0 and empties the item slice. -/
def Collection.Clear (_ : WireDB.Collection) : WireDB.Collection := { Collection := [], TTL := 0 }

/-! ## Stand-in msgpack codec

`msgpack.Marshal` / `msgpack.Unmarshal` are external library calls; the
model uses a concrete self-delimiting codec: every item is length-prefixed,
and a top-level value is a count followed by that many items.  The decoder
fails (`none`) on malformed input, mirroring a msgpack unmarshal error. -/

/-- Length-prefixed encoding of one byte string. -/
def encStr (s : Bytes) : Bytes := s.length :: s

/-- Decode one length-prefixed byte string, returning it and the rest. -/
def decStrItem : Bytes → Option (Bytes × Bytes)
  | [] => none
  | n :: rest => if n ≤ rest.length then some (rest.take n, rest.drop n) else none

/-- Decode `k` consecutive items with the given item decoder. -/
def decItems (decItem : Bytes → Option (α × Bytes)) : Nat → Bytes → Option (List α × Bytes)
  | 0, l => some ([], l)
  | k + 1, l =>
    match decItem l with
    | none => none
    | some (a, r) =>
      match decItems decItem k r with
      | none => none
      | some (as, r2) => some (a :: as, r2)

/-- Decode a count-prefixed list of items, demanding full consumption. -/
def decTop (decItem : Bytes → Option (α × Bytes)) (l : Bytes) : Option (List α) :=
  match l with
  | [] => none
  | n :: rest =>
    match decItems decItem n rest with
    | some (as, []) => some as
    | _ => none

/-- Encode one set entry (member and boolean). -/
def encSetItem (p : Bytes × Bool) : Bytes := encStr p.1 ++ [if p.2 then 1 else 0]

/-- Decode one set entry. -/
def decSetItem (l : Bytes) : Option ((Bytes × Bool) × Bytes) :=
  match decStrItem l with
  | none => none
  | some (s, r) =>
    match r with
    | 0 :: r2 => some ((s, false), r2)
    | 1 :: r2 => some ((s, true), r2)
    | _ => none

/-- Encode one sorted-set entry (member and score pattern). -/
def encZSetItem (p : Bytes × Nat) : Bytes := encStr p.1 ++ [p.2]

/-- Decode one sorted-set entry. -/
def decZSetItem (l : Bytes) : Option ((Bytes × Nat) × Bytes) :=
  match decStrItem l with
  | none => none
  | some (s, r) =>
    match r with
    | sc :: r2 => if sc < 2 ^ 64 then some ((s, sc), r2) else none
    | _ => none

/-- Encode one table entry (key and opaque value). -/
def encTableItem (p : Bytes × Bytes) : Bytes := encStr p.1 ++ encStr p.2

/-- Decode one table entry. -/
def decTableItem (l : Bytes) : Option ((Bytes × Bytes) × Bytes) :=
  match decStrItem l with
  | none => none
  | some (k, r) =>
    match decStrItem r with
    | none => none
    | some (v, r2) => some ((k, v), r2)

/-- Stand-in for `msgpack.Marshal(&set.Set)`. -/
def encodeSetContent (items : List (Bytes × Bool)) : Bytes :=
  items.length :: (items.map encSetItem).flatten

/-- Stand-in for `msgpack.Unmarshal` into a `map[string]bool`. -/
def decodeSetContent (l : Bytes) : Option (List (Bytes × Bool)) := decTop decSetItem l

/-- Stand-in for `msgpack.Marshal(&zset.ZSet)`. -/
def encodeZSetContent (items : List (Bytes × Nat)) : Bytes :=
  items.length :: (items.map encZSetItem).flatten

/-- Stand-in for `msgpack.Unmarshal` into a `map[string]float64`. -/
def decodeZSetContent (l : Bytes) : Option (List (Bytes × Nat)) := decTop decZSetItem l

/-- Stand-in for `msgpack.Marshal(&text.Content)`. -/
def encodeTextContent (content : Bytes) : Bytes := encStr content

/-- Stand-in for `msgpack.Unmarshal` into a `string`. -/
def decodeTextContent (l : Bytes) : Option Bytes :=
  match decStrItem l with
  | some (s, []) => some s
  | _ => none

/-- Stand-in for `msgpack.Marshal(&tab.Table)`. -/
def encodeTableContent (items : List (Bytes × Bytes)) : Bytes :=
  items.length :: (items.map encTableItem).flatten

/-- Stand-in for `msgpack.Unmarshal` into a `map[string]any`. -/
def decodeTableContent (l : Bytes) : Option (List (Bytes × Bytes)) := decTop decTableItem l

/-- Two's-complement 64-bit pattern of an `int64` value. -/
def uint64OfInt64 (n : Int) : Nat := (n % 2 ^ 64).toNat

/-- The `int64` value of a 64-bit pattern (wraps at `2 ^ 63`). -/
def int64OfUInt64 (n : Nat) : Int :=
  if n < 2 ^ 63 then (n : Int) else (n : Int) - 2 ^ 64

/-- Stand-in for `msgpack.Marshal(&num.Value)`. -/
def encodeNumberContent (n : Int) : Bytes := [uint64OfInt64 n]

/-- Stand-in for `msgpack.Unmarshal` into an `int64`. -/
def decodeNumberContent (l : Bytes) : Option Int :=
  match l with
  | [n] => if n < 2 ^ 64 then some (int64OfUInt64 n) else none
  | _ => none

/-- Stand-in for `msgpack.Marshal(&cle.Collection)`. -/
def encodeCollectionContent (items : List Bytes) : Bytes :=
  items.length :: (items.map encStr).flatten

/-- Stand-in for `msgpack.Unmarshal` into a `[]any`. -/
def decodeCollectionContent (l : Bytes) : Option (List Bytes) := decTop decStrItem l

/-! ## vfs package: Kind and Segment (src/unnamed/part_003) -/

/-- Go `vfs.Kind` (`int8` enum): Set=0, ZSet=1, Text=2, Table=3, Number=4,
Unknown=5, Collection=6. -/
inductive Kind where
  | Set
  | ZSet
  | Text
  | Table
  | Number
  | Unknown
  | Collection
deriving DecidableEq

/-- The byte value of a `Kind` (the Go iota order). -/
def kindToByte : Kind → Nat
  | Kind.Set => 0
  | Kind.ZSet => 1
  | Kind.Text => 2
  | Kind.Table => 3
  | Kind.Number => 4
  | Kind.Unknown => 5
  | Kind.Collection => 6

/-- The `Kind` denoted by a byte, if any. -/
def byteToKind : Nat → Option Kind
  | 0 => some Kind.Set
  | 1 => some Kind.ZSet
  | 2 => some Kind.Text
  | 3 => some Kind.Table
  | 4 => some Kind.Number
  | 5 => some Kind.Unknown
  | 6 => some Kind.Collection
  | _ => none

/-- Go `vfs.Segment`: the on-disk record.  The Go field `Type` is spelled
`Type'` here (`Type` is a Lean keyword); `Tombstone` is the `int8` flag,
`ExpiredAt`/`CreatedAt` are `uint64` nanoseconds, `KeySize`/`ValueSize` are
`uint32` lengths. -/
structure Segment where
  Tombstone : Nat
  Type' : Kind
  ExpiredAt : Nat
  CreatedAt : Nat
  KeySize : Nat
  ValueSize : Nat
  Key : Bytes
  Value : Bytes
deriving DecidableEq

/-- Go `vfs.Serializable`: in the repository exactly the six pointer types
of the types package implement `ToBytes() ([]byte, error)`, so the
interface is embedded as the closed sum of its implementers. -/
inductive Serializable where
  | set (s : Set)
  | zset (z : ZSet)
  | text (t : Text)
  | table (tab : Table)
  | number (n : Number)
  | collection (c : Collection)
deriving DecidableEq

/-- Go `vfs.toKind`: type switch on the dynamic type of the payload.  The
Go `default: return Unknown` branch is unreachable for the closed set of
implementers above. -/
def toKind : Serializable → Kind
  | Serializable.set _ => Kind.Set
  | Serializable.zset _ => Kind.ZSet
  | Serializable.text _ => Kind.Text
  | Serializable.table _ => Kind.Table
  | Serializable.number _ => Kind.Number
  | Serializable.collection _ => Kind.Collection

/-- The `ToBytes` method of each payload type: msgpack-marshal the content
field only (never the TTL), via the stand-in codec. -/
def ToBytes : Serializable → Except String Bytes
  | Serializable.set s => Except.ok (encodeSetContent s.Set)
  | Serializable.zset z => Except.ok (encodeZSetContent z.ZSet)
  | Serializable.text t => Except.ok (encodeTextContent t.Content)
  | Serializable.table tab => Except.ok (encodeTableContent tab.Table)
  | Serializable.number n => Except.ok (encodeNumberContent n.Value)
  | Serializable.collection c => Except.ok (encodeCollectionContent c.Collection)

/-- The serialized content bytes of a payload (what its `ToBytes` yields). -/
def encodeContent : Serializable → Bytes
  | Serializable.set s => encodeSetContent s.Set
  | Serializable.zset z => encodeZSetContent z.ZSet
  | Serializable.text t => encodeTextContent t.Content
  | Serializable.table tab => encodeTableContent tab.Table
  | Serializable.number n => encodeNumberContent n.Value
  | Serializable.collection c => encodeCollectionContent c.Collection

/-- A payload transform (the package-global `transformer`); the disabled
pipeline is the identity. -/
def idTransformer : Bytes → Except String Bytes := Except.ok

/-- Go `vfs.NewSegment(key, data, ttl)`.  `tf` is the package-global
`transformer.Encode`, `now` the wall clock in nanoseconds.  The expiry is
`now + ttl·10⁹` in `uint64` arithmetic when `ttl > 0`, else 0. -/
def NewSegment (tf : Bytes → Except String Bytes) (now : Nat) (key : Bytes)
    (data : Serializable) (ttl : Nat) : Except String Segment :=
  let timestamp := now % 2 ^ 64
  let expiredAt := if ttl > 0 then (now + ttl * 1000000000) % 2 ^ 64 else 0
  match ToBytes data with
  | Except.error e => Except.error e
  | Except.ok bytes =>
    match tf bytes with
    | Except.error e => Except.error ("transformer encode: " ++ e)
    | Except.ok encodedata =>
      Except.ok
        { Type' := toKind data
          Tombstone := 0
          CreatedAt := timestamp
          ExpiredAt := expiredAt
          KeySize := key.length % 2 ^ 32
          ValueSize := encodedata.length % 2 ^ 32
          Key := key
          Value := encodedata }

/-- Go `vfs.AcquirePoolSegment(key, data, ttl)`: takes a pooled `Segment`
and assigns every one of its eight fields before returning it; on an error
the pooled value is released and only the error escapes. -/
def AcquirePoolSegment (tf : Bytes → Except String Bytes) (now : Nat)
    (pooled : Segment) (key : Bytes) (data : Serializable) (ttl : Nat) :
    Except String Segment :=
  let timestamp := now % 2 ^ 64
  let expiredAt := if ttl > 0 then (now + ttl * 1000000000) % 2 ^ 64 else 0
  match ToBytes data with
  | Except.error e => Except.error e
  | Except.ok bytes =>
    match tf bytes with
    | Except.error e => Except.error ("transformer encode: " ++ e)
    | Except.ok encodedata =>
      Except.ok
        { pooled with
          Type' := toKind data
          Tombstone := 0
          CreatedAt := timestamp
          ExpiredAt := expiredAt
          KeySize := key.length % 2 ^ 32
          ValueSize := encodedata.length % 2 ^ 32
          Key := key
          Value := encodedata }

/-- Go `vfs.NewTombstoneSegment(key)`: deletion marker with Unknown kind,
no expiry and an empty value. -/
def NewTombstoneSegment (now : Nat) (key : Bytes) : Segment :=
  { Type' := Kind.Unknown
    Tombstone := 1
    CreatedAt := now % 2 ^ 64
    ExpiredAt := 0
    KeySize := key.length % 2 ^ 32
    ValueSize := 0
    Key := key
    Value := [] }

/-- Go `(*Segment).IsTombstone`. -/
def Segment.IsTombstone (s : Segment) : Bool := s.Tombstone == 1

/-- Go `(*Segment).Clear`: nils the key and value, zeroes `KeySize`,
`CreatedAt`, `ExpiredAt`, `ValueSize` and `Tombstone`.  The source does not
touch the `Type` field. -/
def Segment.Clear (s : Segment) : Segment :=
  { s with
    Key := []
    Value := []
    KeySize := 0
    CreatedAt := 0
    ExpiredAt := 0
    ValueSize := 0
    Tombstone := 0 }

/-- Go `(*Segment).TTL`: `-1` unless `ExpiredAt > 0` and `ExpiredAt > now`,
else `int64(ExpiredAt-now) / int64(time.Second)` (truncated division after
the narrowing `uint64` to `int64` cast). -/
def Segment.TTL (s : Segment) (now : Nat) : Int :=
  if s.ExpiredAt > 0 ∧ s.ExpiredAt > now then
    Int.tdiv (int64OfUInt64 (s.ExpiredAt - now)) 1000000000
  else
    -1

/-- Go `(*Segment).ToSet`: kind guard, then msgpack-unmarshal the value. -/
def Segment.ToSet (s : Segment) : Except String Set :=
  if s.Type' ≠ Kind.Set then Except.error ("not support conversion to set type")
  else
    match decodeSetContent s.Value with
    | some items => Except.ok { Set := items, TTL := 0 }
    | none => Except.error ("msgpack unmarshal failed")

/-- Go `(*Segment).ToZSet`: kind guard, then msgpack-unmarshal the value. -/
def Segment.ToZSet (s : Segment) : Except String ZSet :=
  if s.Type' ≠ Kind.ZSet then Except.error ("not support conversion to zset type")
  else
    match decodeZSetContent s.Value with
    | some items => Except.ok { ZSet := items, TTL := 0, sortedScores := [] }
    | none => Except.error ("msgpack unmarshal failed")

/-- Go `(*Segment).ToText`: kind guard, then msgpack-unmarshal the value. -/
def Segment.ToText (s : Segment) : Except String Text :=
  if s.Type' ≠ Kind.Text then Except.error ("not support conversion to text type")
  else
    match decodeTextContent s.Value with
    | some c => Except.ok { Content := c, TTL := 0 }
    | none => Except.error ("msgpack unmarshal failed")

/-- Go `(*Segment).ToTable`: kind guard, then msgpack-unmarshal the value. -/
def Segment.ToTable (s : Segment) : Except String Table :=
  if s.Type' ≠ Kind.Table then Except.error ("not support conversion to table type")
  else
    match decodeTableContent s.Value with
    | some items => Except.ok { Table := items, TTL := 0 }
    | none => Except.error ("msgpack unmarshal failed")

/-- Go `(*Segment).ToNumber`: kind guard, then msgpack-unmarshal the value. -/
def Segment.ToNumber (s : Segment) : Except String Number :=
  if s.Type' ≠ Kind.Number then Except.error ("not support conversion to number type")
  else
    match decodeNumberContent s.Value with
    | some n => Except.ok { Value := n, TTL := 0 }
    | none => Except.error ("msgpack unmarshal failed")

/-- Go `(*Segment).ToCollection`: kind guard, then msgpack-unmarshal. -/
def Segment.ToCollection (s : Segment) : Except String Collection :=
  if s.Type' ≠ Kind.Collection then
    Except.error ("not support conversion to collection type")
  else
    match decodeCollectionContent s.Value with
    | some items => Except.ok { Collection := items, TTL := 0 }
    | none => Except.error ("msgpack unmarshal failed")

/-- The zero value `new(Segment)` (Go zero `int8` kind is `Set`). -/
def zeroSegment : Segment :=
  { Tombstone := 0
    Type' := Kind.Set
    ExpiredAt := 0
    CreatedAt := 0
    KeySize := 0
    ValueSize := 0
    Key := []
    Value := [] }

/-! ## The zset object pool (src/types/zset.go and the Set file init) -/

/-- An element of the `zsetPools` `sync.Pool`.  The pool stores `any`
values; in the program it receives `*ZSet` values from `zset.go` and, by
the pre-fill loop in the file defining `Set`, also `*Set` values. -/
inductive ZSetPoolItem where
  | zsetItem (z : ZSet)
  | setItem (s : Set)
deriving DecidableEq

/-- The contents of `zsetPools` after package `types` initialisation: the
`zset.go` init stores ten `NewZSet()` values, and the init of the file
defining `Set` stores ten `NewSet()` values into `zsetPools`. -/
def zsetPoolsAfterInit : List ZSetPoolItem :=
  List.replicate 10 (ZSetPoolItem.zsetItem NewZSet) ++
    List.replicate 10 (ZSetPoolItem.setItem NewSet)

/-- Go `types.AcquireZSet`, i.e. `zsetPools.Get().(*ZSet)` applied to one
pool element: the type assertion yields the `ZSet` when the element is a
`*ZSet` and panics otherwise (`none` models the panic). -/
def AcquireZSet : ZSetPoolItem → Option ZSet
  | ZSetPoolItem.zsetItem z => some z
  | ZSetPoolItem.setItem _ => none

/-! ## conf package (src/conf/server_options.go) -/

/-- Go `conf.Region`. -/
structure Region where
  Enable : Bool
  Schedule : String
  Threshold : Nat
deriving DecidableEq

/-- Go `conf.Encryptor`. -/
structure Encryptor where
  Enable : Bool
  Secret : String
deriving DecidableEq

/-- Go `conf.Compressor`. -/
structure Compressor where
  Enable : Bool
deriving DecidableEq

/-- Go `conf.Checkpoint`. -/
structure Checkpoint where
  Enable : Bool
  Interval : Nat
deriving DecidableEq

/-- Go `conf.ServerOptions`. -/
structure ServerOptions where
  Port : Int
  Path : String
  Debug : Bool
  LogPath : String
  Password : String
  Region : Region
  Encryptor : Encryptor
  Compressor : Compressor
  Checkpoint : Checkpoint
  AllowIP : List String
deriving DecidableEq

/-- Go `conf.valid`: the table of legal AES key lengths in bytes. -/
def validKeyLength (n : Nat) : Bool := n == 16 || n == 24 || n == 32

/-- Go `conf.validateEncryptor`: nothing to check when disabled; otherwise
the secret's byte length must be 16, 24 or 32. -/
def validateEncryptor (encryptor : Encryptor) : Option String :=
  if !encryptor.Enable then none
  else if validKeyLength encryptor.Secret.utf8ByteSize then none
  else some ("invalid secret key length it must be 16, 24, or 32 bytes")

/-- Go `conf.validatePort`: the port must lie strictly between 1024 and
65535. -/
def validatePort (port : Int) : Option String :=
  if port ≤ 1024 ∨ port ≥ 65535 then
    some ("port range must be between 1025 and 65534")
  else none

/-- Go `conf.validatePath`: the data directory path must be non-empty. -/
def validatePath (path : String) : Option String :=
  if path = "" then some ("data directory path cannot be empty") else none

/-- Go `conf.validatePassword`: the auth password must be non-empty. -/
def validatePassword (password : String) : Option String :=
  if password = "" then some ("auth password cannot be empty") else none

/-- Go `conf.Vaildated` (sic): runs the port, path, auth and encryptor
validators in that order, returning the first error, `none` for success. -/
def Vaildated (opt : ServerOptions) : Option String :=
  match validatePort opt.Port with
  | some e => some e
  | none =>
    match validatePath opt.Path with
    | some e => some e
    | none =>
      match validatePassword opt.Password with
      | some e => some e
      | none => validateEncryptor opt.Encryptor

/-! ## Spec-modelled store operations

`vfs.LogStructuredFS` (the engine) is not among the provided source files;
only its callers in the server package are.  The operations a claim needs
are modelled from the specification. -/

/-- Modelled from the spec: the in-memory state of the engine that the
claims observe — the append-only log of records and the in-memory index
mapping a key to its per-key version and newest record.  The real index
stores a record location; the record itself stands for that location
here. -/
structure LogStructuredFS where
  log : List Segment
  index : List (Bytes × Nat × Segment)

/-- Look a key up in the association-list index. -/
def lookupIdx : List (Bytes × Nat × Segment) → Bytes → Option (Nat × Segment)
  | [], _ => none
  | (k, v, s) :: rest, key => if k = key then some (v, s) else lookupIdx rest key

/-- Remove a key from the association-list index. -/
def removeIdx (idx : List (Bytes × Nat × Segment)) (key : Bytes) :
    List (Bytes × Nat × Segment) :=
  idx.filter (fun e => e.1 ≠ key)

/-- Modelled from the spec: `DeleteSegment` — "always writes a tombstone
record for the key (even if the key is not present)" and "removes the
index entry if present". -/
def DeleteSegment (st : LogStructuredFS) (now : Nat) (key : Bytes) :
    LogStructuredFS :=
  { log := st.log ++ [NewTombstoneSegment now key]
    index := removeIdx st.index key }

/-- Modelled from the spec: `FetchSegment` — looks up the index; absent or
expired keys give NotFound, a record of Unknown kind is rejected as
NotFound, otherwise the version and record are returned. -/
def FetchSegment (st : LogStructuredFS) (key : Bytes) (now : Nat) :
    Except String (Nat × Segment) :=
  match lookupIdx st.index key with
  | none => Except.error ("key data not found")
  | some (v, s) =>
    if s.ExpiredAt > 0 ∧ now ≥ s.ExpiredAt then Except.error ("key data not found")
    else if s.Type' = Kind.Unknown then Except.error ("key data not found")
    else Except.ok (v, s)

/-! ## Spec-modelled record codec

The record codec (`frame` / `parse`, spec section 4.1) is not among the
provided source files; it is modelled from the specification's record
layout: header fields in the authoritative order and widths (Tombstone 1,
Kind 1, ExpiresAt 8, CreatedAt 8, KeySize 4, ValueSize 4, all multi-byte
integers big-endian), then key and value, then an IEEE CRC32 over all
prior bytes. -/

/-- Big-endian byte string of width `w` for the value `n` (mod `256 ^ w`). -/
def beBytes : Nat → Nat → Bytes
  | 0, _ => []
  | w + 1, n => beBytes w (n / 256) ++ [n % 256]

/-- The value of a big-endian byte string. -/
def beVal (l : Bytes) : Nat := l.foldl (fun a b => a * 256 + b) 0

/-- One shift-and-conditionally-xor step of the reflected IEEE CRC32. -/
def crc32Bit (c : Nat) : Nat :=
  if c % 2 = 1 then (c / 2) ^^^ 0xEDB88320 else c / 2

/-- Iterate the CRC32 bit step. -/
def crc32Bits : Nat → Nat → Nat
  | 0, c => c
  | k + 1, c => crc32Bits k (crc32Bit c)

/-- Modelled from the spec: the IEEE CRC32 checksum of a byte string
(reflected polynomial 0xEDB88320, initial value and final xor
0xFFFFFFFF), reduced to its 32-bit value. -/
def crc32 (data : Bytes) : Nat :=
  ((data.foldl (fun c b => crc32Bits 8 (c ^^^ b % 256)) 0xFFFFFFFF) ^^^
      0xFFFFFFFF) % 2 ^ 32

/-- Modelled from the spec: `frame(record)` — header fields in the
authoritative order and widths, then key and value, then the CRC32 of all
prior bytes. -/
def frame (s : Segment) : Bytes :=
  let payload :=
    beBytes 1 s.Tombstone ++ (beBytes 1 (kindToByte s.Type') ++
      (beBytes 8 s.ExpiredAt ++ (beBytes 8 s.CreatedAt ++
        (beBytes 4 s.KeySize ++ (beBytes 4 s.ValueSize ++ (s.Key ++ s.Value))))))
  payload ++ beBytes 4 (crc32 payload)

/-- The error kinds of the spec's record codec. -/
inductive VfsError where
  | Corrupt
  | ShortRead
deriving DecidableEq

/-- Modelled from the spec: `parse(reader)` — reads the 26-byte header,
then `KeySize + ValueSize` body bytes, then the trailing CRC32; fails with
`ShortRead` when fewer bytes than needed remain and with `Corrupt` when
the CRC (or the kind byte) is invalid. -/
def parse (data : Bytes) : Except VfsError Segment :=
  if data.length < 26 then Except.error VfsError.ShortRead
  else
    let tomb := beVal (data.take 1)
    let r1 := data.drop 1
    let kb := beVal (r1.take 1)
    let r2 := r1.drop 1
    let eat := beVal (r2.take 8)
    let r3 := r2.drop 8
    let cat := beVal (r3.take 8)
    let r4 := r3.drop 8
    let ks := beVal (r4.take 4)
    let r5 := r4.drop 4
    let vs := beVal (r5.take 4)
    let r6 := r5.drop 4
    if r6.length < ks + vs + 4 then Except.error VfsError.ShortRead
    else
      let key := r6.take ks
      let r7 := r6.drop ks
      let value := r7.take vs
      let r8 := r7.drop vs
      let crcStored := beVal (r8.take 4)
      if crc32 (data.take (26 + ks + vs)) ≠ crcStored then
        Except.error VfsError.Corrupt
      else
        match byteToKind kb with
        | some k =>
          Except.ok
            { Tombstone := tomb
              Type' := k
              ExpiredAt := eat
              CreatedAt := cat
              KeySize := ks
              ValueSize := vs
              Key := key
              Value := value }
        | none => Except.error VfsError.Corrupt

/-- A record that meets the size limits of the data model: the stored
sizes agree with the key and value lengths, each field fits its width, and
the key and value are byte strings. -/
def wellFormed (s : Segment) : Prop :=
  s.Tombstone < 256 ∧
    s.ExpiredAt < 2 ^ 64 ∧
      s.CreatedAt < 2 ^ 64 ∧
        s.KeySize = s.Key.length ∧
          s.ValueSize = s.Value.length ∧
            s.Key.length < 2 ^ 32 ∧
              s.Value.length < 2 ^ 32 ∧
                (∀ b ∈ s.Key, b < 256) ∧ ∀ b ∈ s.Value, b < 256

instance (s : Segment) : Decidable (wellFormed s) := by
  unfold wellFormed; infer_instance

/-- What a typed conversion of a segment must satisfy: an error whenever
the kind differs from the target, an error when decoding fails, and the
decoded payload (wrapped by `mk`) exactly when the kind matches and
decoding succeeds. -/
def ConvSpec {α β : Type} (s : Segment) (target : Kind) (dec : Bytes → Option α)
    (mk : α → β) (conv : Except String β) : Prop :=
  (s.Type' ≠ target → ∃ e, conv = Except.error e) ∧
    (s.Type' = target → dec s.Value = none → ∃ e, conv = Except.error e) ∧
      (s.Type' = target → ∀ d, dec s.Value = some d → conv = Except.ok (mk d)) ∧
        ∀ b, conv = Except.ok b → s.Type' = target ∧ ∃ d, dec s.Value = some d ∧ b = mk d

end WireDB

deriving instance DecidableEq for Except

namespace WireDB

/-! ## Helper lemmas -/

theorem ToBytes_eq (d : Serializable) : ToBytes d = Except.ok (encodeContent d) := by
  cases d <;> rfl

theorem NewSegment_eq (tf : Bytes → Except String Bytes) (now : Nat) (key : Bytes)
    (data : Serializable) (ttl : Nat) :
    NewSegment tf now key data ttl =
      match tf (encodeContent data) with
      | Except.error e => Except.error ("transformer encode: " ++ e)
      | Except.ok enc =>
        Except.ok
          { Type' := toKind data
            Tombstone := 0
            CreatedAt := now % 2 ^ 64
            ExpiredAt := if ttl > 0 then (now + ttl * 1000000000) % 2 ^ 64 else 0
            KeySize := key.length % 2 ^ 32
            ValueSize := enc.length % 2 ^ 32
            Key := key
            Value := enc } := by
  simp only [NewSegment, ToBytes_eq]

theorem AcquirePoolSegment_eq_NewSegment (tf : Bytes → Except String Bytes)
    (now : Nat) (pooled : Segment) (key : Bytes) (data : Serializable) (ttl : Nat) :
    AcquirePoolSegment tf now pooled key data ttl = NewSegment tf now key data ttl := by
  simp only [AcquirePoolSegment, NewSegment, ToBytes_eq]

theorem NewSegment_ok_fields (tf : Bytes → Except String Bytes) (now : Nat)
    (key : Bytes) (data : Serializable) (ttl : Nat) (seg : Segment)
    (h : NewSegment tf now key data ttl = Except.ok seg) :
    seg.Type' = toKind data ∧ seg.Tombstone = 0 ∧
      seg.ExpiredAt = (if ttl > 0 then (now + ttl * 1000000000) % 2 ^ 64 else 0) ∧
        seg.KeySize = key.length % 2 ^ 32 ∧ seg.Key = key := by
  rw [NewSegment_eq] at h
  cases htf : tf (encodeContent data) with
  | error e => rw [htf] at h; exact absurd h (by simp)
  | ok enc =>
    rw [htf] at h
    simp only [Except.ok.injEq] at h
    subst h
    simp

/-! ## Claim theorems -/

/-- C2: a segment built on the write path (`NewSegment` or
`AcquirePoolSegment`) has `ExpiredAt = now + ttl·10⁹` (in `uint64`
arithmetic, hence exactly when the sum is below `2 ^ 64`) when `ttl > 0`,
and `ExpiredAt = 0` (never expires) when `ttl = 0`. -/
theorem write_path_expiry (tf : Bytes → Except String Bytes) (now : Nat)
    (key : Bytes) (data : Serializable) (ttl : Nat) (seg : Segment)
    (h : NewSegment tf now key data ttl = Except.ok seg ∨
      ∃ pooled, AcquirePoolSegment tf now pooled key data ttl = Except.ok seg) :
    (ttl = 0 → seg.ExpiredAt = 0) ∧
      (0 < ttl → seg.ExpiredAt = (now + ttl * 1000000000) % 2 ^ 64) ∧
        (0 < ttl → now + ttl * 1000000000 < 2 ^ 64 →
          seg.ExpiredAt = now + ttl * 1000000000) := by
  have hn : NewSegment tf now key data ttl = Except.ok seg := by
    rcases h with h | ⟨pooled, h⟩
    · exact h
    · rw [AcquirePoolSegment_eq_NewSegment] at h; exact h
  obtain ⟨-, -, he, -, -⟩ := NewSegment_ok_fields tf now key data ttl seg hn
  refine ⟨?_, ?_, ?_⟩
  · intro h0; simp [h0] at he; exact he
  · intro hpos; rwa [if_pos hpos] at he
  · intro hpos hlt; rw [if_pos hpos] at he; rwa [Nat.mod_eq_of_lt hlt] at he

/-- C2 witness: a text record with key k, ttl 5 s, at clock 0. -/
theorem write_path_expiry_witness :
    ({ Tombstone := 0, Type' := Kind.Text, ExpiredAt := 5000000000, CreatedAt := 0,
        KeySize := 1, ValueSize := 2, Key := [107], Value := [1, 104] } : Segment).ExpiredAt
      = (0 + 5 * 1000000000) % 2 ^ 64 :=
  (write_path_expiry idTransformer 0 [107] (Serializable.text (NewText [104])) 5
      { Tombstone := 0, Type' := Kind.Text, ExpiredAt := 5000000000, CreatedAt := 0,
        KeySize := 1, ValueSize := 2, Key := [107], Value := [1, 104] }
      (Or.inl (by decide))).2.1 (by decide)

/-- C3 (amended): `Segment.TTL` returns `-1` when the record has no expiry
or is already expired, and the whole remaining seconds
`(ExpiredAt − now) / 10⁹` whenever the remaining nanoseconds fit in an
`int64`; for differences of at least `2 ^ 63` the `uint64` to `int64` cast
in the source wraps and the result is negative instead of the
mathematical floor. -/
theorem Segment_TTL_spec (s : Segment) (now : Nat) :
    (s.ExpiredAt = 0 → s.TTL now = -1) ∧
      (s.ExpiredAt ≤ now → s.TTL now = -1) ∧
        (now < s.ExpiredAt → s.ExpiredAt - now < 2 ^ 63 →
          s.TTL now = ((s.ExpiredAt - now) / 1000000000 : Nat)) := by
  refine ⟨?_, ?_, ?_⟩
  · intro h0
    rw [Segment.TTL, if_neg]
    simp [h0]
  · intro hle
    rw [Segment.TTL, if_neg]
    simp only [not_and, not_lt]
    intro _; exact hle
  · intro hlt hsmall
    rw [Segment.TTL, if_pos ⟨by omega, hlt⟩, int64OfUInt64, if_pos hsmall]
    rfl

/-- C3 witness: 5 s expiry read at clock 2 s gives 3 s; an expired and a
no-expiry record give -1. -/
theorem Segment_TTL_spec_witness :
    Segment.TTL { zeroSegment with ExpiredAt := 5000000000 } 2000000000
        = ((5000000000 - 2000000000 : Nat) / 1000000000 : Nat) ∧
      Segment.TTL { zeroSegment with ExpiredAt := 5000000000 } 6000000000 = -1 ∧
        Segment.TTL zeroSegment 2000000000 = -1 :=
  ⟨(Segment_TTL_spec { zeroSegment with ExpiredAt := 5000000000 } 2000000000).2.2
      (by decide) (by decide),
    (Segment_TTL_spec { zeroSegment with ExpiredAt := 5000000000 } 6000000000).2.1
      (by decide),
    (Segment_TTL_spec zeroSegment 2000000000).1 (by decide)⟩

/-- C3 counterexample: with `ExpiredAt = 2 ^ 63` and `now = 0` the source
returns a negative quotient (the `int64` cast wraps), which is neither
`-1` nor the claimed floor `(ExpiredAt − now) / 10⁹`. -/
theorem Segment_TTL_overflow_counterexample :
    Segment.TTL { zeroSegment with ExpiredAt := 2 ^ 63 } 0 ≠ -1 ∧
      Segment.TTL { zeroSegment with ExpiredAt := 2 ^ 63 } 0
        ≠ (((2 ^ 63 - 0 : Nat) / 1000000000 : Nat) : Int) := by
  constructor
  · decide
  · decide

/-- C4: the tombstone record written by Delete has Tombstone = 1, Kind
Unknown, an empty value, no expiry, and the given key; the store Delete
appends exactly that tombstone to the log even when the key is absent,
and is idempotent (the second delete leaves the index unchanged and a
fetch after delete reports NotFound). -/
theorem tombstone_delete_spec (now : Nat) (key : Bytes) (st : LogStructuredFS)
    (now2 now3 : Nat) (hkey : key.length < 2 ^ 32) :
    (NewTombstoneSegment now key).Tombstone = 1 ∧
      (NewTombstoneSegment now key).Type' = Kind.Unknown ∧
        (NewTombstoneSegment now key).Value = [] ∧
          (NewTombstoneSegment now key).ValueSize = 0 ∧
            (NewTombstoneSegment now key).ExpiredAt = 0 ∧
              (NewTombstoneSegment now key).Key = key ∧
                (NewTombstoneSegment now key).KeySize = key.length ∧
                  (DeleteSegment st now key).log = st.log ++ [NewTombstoneSegment now key] ∧
                    (DeleteSegment (DeleteSegment st now key) now2 key).index
                        = (DeleteSegment st now key).index ∧
                      FetchSegment (DeleteSegment st now key) key now3
                        = Except.error ("key data not found") := by
  refine ⟨rfl, rfl, rfl, rfl, rfl, rfl, Nat.mod_eq_of_lt hkey, rfl, ?_, ?_⟩
  · show removeIdx (removeIdx st.index key) key = removeIdx st.index key
    simp [removeIdx, List.filter_filter]
  · show FetchSegment (DeleteSegment st now key) key now3 = _
    have hl : lookupIdx (removeIdx st.index key) key = none := by
      induction st.index with
      | nil => rfl
      | cons e rest ih =>
        by_cases h : e.1 = key
        · simpa [removeIdx, List.filter_cons, h] using ih
        · simpa [removeIdx, List.filter_cons, h, lookupIdx] using ih
    simp [FetchSegment, DeleteSegment, hl]

/-- C4 witness: concrete key and empty store. -/
theorem tombstone_delete_spec_witness :
    (NewTombstoneSegment 7 [107]).Tombstone = 1 ∧
      (NewTombstoneSegment 7 [107]).Type' = Kind.Unknown ∧
        (NewTombstoneSegment 7 [107]).Value = [] ∧
          (NewTombstoneSegment 7 [107]).ValueSize = 0 ∧
            (NewTombstoneSegment 7 [107]).ExpiredAt = 0 ∧
              (NewTombstoneSegment 7 [107]).Key = [107] ∧
                (NewTombstoneSegment 7 [107]).KeySize = 1 ∧
                  (DeleteSegment ⟨[], []⟩ 7 [107]).log
                      = [] ++ [NewTombstoneSegment 7 [107]] ∧
                    (DeleteSegment (DeleteSegment ⟨[], []⟩ 7 [107]) 8 [107]).index
                        = (DeleteSegment ⟨[], []⟩ 7 [107]).index ∧
                      FetchSegment (DeleteSegment ⟨[], []⟩ 7 [107]) [107] 9
                        = Except.error ("key data not found") := by
  have h := tombstone_delete_spec 7 [107] ⟨[], []⟩ 8 9 (by decide)
  simpa using h

theorem convSpec_of_parts {α β : Type} (s : Segment) (target : Kind)
    (dec : Bytes → Option α) (mk : α → β) (conv : Except String β)
    (errK errD : String)
    (hmis : s.Type' ≠ target → conv = Except.error errK)
    (hnone : s.Type' = target → dec s.Value = none → conv = Except.error errD)
    (hsome : ∀ d, s.Type' = target → dec s.Value = some d → conv = Except.ok (mk d)) :
    ConvSpec s target dec mk conv := by
  by_cases ht : s.Type' = target
  · cases hd : dec s.Value with
    | none =>
      refine ⟨fun hne => absurd ht hne, fun _ _ => ⟨errD, hnone ht hd⟩, ?_, ?_⟩
      · intro _ d hd2
        rw [hd] at hd2
        exact Option.noConfusion hd2
      · intro b hb
        rw [hnone ht hd] at hb
        exact Except.noConfusion hb
    | some d =>
      refine ⟨fun hne => absurd ht hne, ?_, ?_, ?_⟩
      · intro _ h2
        rw [hd] at h2
        exact Option.noConfusion h2
      · intro _ d2 hd2
        rw [hd] at hd2
        injection hd2 with hdd
        subst hdd
        exact hsome d ht hd
      · intro b hb
        rw [hsome d ht hd] at hb
        injection hb with hbb
        subst hbb
        exact ⟨ht, d, hd, rfl⟩
  · refine ⟨fun _ => ⟨errK, hmis ht⟩, fun h2 => absurd h2 ht, fun h2 => absurd h2 ht, ?_⟩
    intro b hb
    rw [hmis ht] at hb
    exact Except.noConfusion hb

theorem toSet_convSpec (s : Segment) :
    ConvSpec s Kind.Set decodeSetContent
      (fun items => ({ Set := items, TTL := 0 } : Set)) s.ToSet :=
  convSpec_of_parts s Kind.Set decodeSetContent _ s.ToSet
    ("not support conversion to set type") ("msgpack unmarshal failed")
    (fun h => by simp [Segment.ToSet, h])
    (fun ht hd => by simp [Segment.ToSet, ht, hd])
    (fun d ht hd => by simp [Segment.ToSet, ht, hd])

theorem toZSet_convSpec (s : Segment) :
    ConvSpec s Kind.ZSet decodeZSetContent
      (fun items => ({ ZSet := items, TTL := 0, sortedScores := [] } : ZSet)) s.ToZSet :=
  convSpec_of_parts s Kind.ZSet decodeZSetContent _ s.ToZSet
    ("not support conversion to zset type") ("msgpack unmarshal failed")
    (fun h => by simp [Segment.ToZSet, h])
    (fun ht hd => by simp [Segment.ToZSet, ht, hd])
    (fun d ht hd => by simp [Segment.ToZSet, ht, hd])

theorem toText_convSpec (s : Segment) :
    ConvSpec s Kind.Text decodeTextContent
      (fun c => ({ Content := c, TTL := 0 } : Text)) s.ToText :=
  convSpec_of_parts s Kind.Text decodeTextContent _ s.ToText
    ("not support conversion to text type") ("msgpack unmarshal failed")
    (fun h => by simp [Segment.ToText, h])
    (fun ht hd => by simp [Segment.ToText, ht, hd])
    (fun d ht hd => by simp [Segment.ToText, ht, hd])

theorem toTable_convSpec (s : Segment) :
    ConvSpec s Kind.Table decodeTableContent
      (fun items => ({ Table := items, TTL := 0 } : Table)) s.ToTable :=
  convSpec_of_parts s Kind.Table decodeTableContent _ s.ToTable
    ("not support conversion to table type") ("msgpack unmarshal failed")
    (fun h => by simp [Segment.ToTable, h])
    (fun ht hd => by simp [Segment.ToTable, ht, hd])
    (fun d ht hd => by simp [Segment.ToTable, ht, hd])

theorem toNumber_convSpec (s : Segment) :
    ConvSpec s Kind.Number decodeNumberContent
      (fun n => ({ Value := n, TTL := 0 } : Number)) s.ToNumber :=
  convSpec_of_parts s Kind.Number decodeNumberContent _ s.ToNumber
    ("not support conversion to number type") ("msgpack unmarshal failed")
    (fun h => by simp [Segment.ToNumber, h])
    (fun ht hd => by simp [Segment.ToNumber, ht, hd])
    (fun d ht hd => by simp [Segment.ToNumber, ht, hd])

theorem toCollection_convSpec (s : Segment) :
    ConvSpec s Kind.Collection decodeCollectionContent
      (fun items => ({ Collection := items, TTL := 0 } : Collection)) s.ToCollection :=
  convSpec_of_parts s Kind.Collection decodeCollectionContent _ s.ToCollection
    ("not support conversion to collection type") ("msgpack unmarshal failed")
    (fun h => by simp [Segment.ToCollection, h])
    (fun ht hd => by simp [Segment.ToCollection, ht, hd])
    (fun d ht hd => by simp [Segment.ToCollection, ht, hd])

/-- C5: each typed conversion of a segment fails with an error when the
segment's Kind differs from the target kind, and otherwise returns the
msgpack-decoded payload of the value (or an error if decoding fails). -/
theorem Segment_conversions_spec (s : Segment) :
    ConvSpec s Kind.Set decodeSetContent
        (fun items => ({ Set := items, TTL := 0 } : Set)) s.ToSet ∧
      ConvSpec s Kind.ZSet decodeZSetContent
          (fun items => ({ ZSet := items, TTL := 0, sortedScores := [] } : ZSet)) s.ToZSet ∧
        ConvSpec s Kind.Text decodeTextContent
            (fun c => ({ Content := c, TTL := 0 } : Text)) s.ToText ∧
          ConvSpec s Kind.Table decodeTableContent
              (fun items => ({ Table := items, TTL := 0 } : Table)) s.ToTable ∧
            ConvSpec s Kind.Number decodeNumberContent
                (fun n => ({ Value := n, TTL := 0 } : Number)) s.ToNumber ∧
              ConvSpec s Kind.Collection decodeCollectionContent
                  (fun items => ({ Collection := items, TTL := 0 } : Collection))
                  s.ToCollection :=
  ⟨toSet_convSpec s, toZSet_convSpec s, toText_convSpec s, toTable_convSpec s,
    toNumber_convSpec s, toCollection_convSpec s⟩

/-- C5 witness: a Text-kind segment converts to the decoded text. -/
theorem Segment_conversions_spec_witness :
    ({ zeroSegment with Type' := Kind.Text, Value := [1, 104] } : Segment).ToText
      = Except.ok { Content := [104], TTL := 0 } :=
  ((Segment_conversions_spec
        { zeroSegment with Type' := Kind.Text, Value := [1, 104] }).2.2.1).2.2.1
    rfl [104] (by decide)

/-- C6: every live segment built on the write path has a Kind among the
six payload kinds, never Unknown; and a read of a record whose Kind is
Unknown reports NotFound. -/
theorem kind_unknown_reserved :
    (∀ (tf : Bytes → Except String Bytes) (now : Nat) (key : Bytes)
        (data : Serializable) (ttl : Nat) (seg : Segment),
      (NewSegment tf now key data ttl = Except.ok seg ∨
        ∃ pooled, AcquirePoolSegment tf now pooled key data ttl = Except.ok seg) →
      seg.Tombstone = 0 ∧ seg.Type' ≠ Kind.Unknown ∧
        seg.Type' ∈ [Kind.Set, Kind.ZSet, Kind.Text, Kind.Table, Kind.Number,
          Kind.Collection]) ∧
      ∀ (st : LogStructuredFS) (key : Bytes) (now v : Nat) (s : Segment),
        lookupIdx st.index key = some (v, s) → s.Type' = Kind.Unknown →
          FetchSegment st key now = Except.error ("key data not found") := by
  constructor
  · intro tf now key data ttl seg h
    have hn : NewSegment tf now key data ttl = Except.ok seg := by
      rcases h with h | ⟨pooled, h⟩
      · exact h
      · rwa [AcquirePoolSegment_eq_NewSegment] at h
    obtain ⟨hty, htomb, -, -, -⟩ := NewSegment_ok_fields tf now key data ttl seg hn
    refine ⟨htomb, ?_, ?_⟩ <;> rw [hty] <;> cases data <;> simp [toKind]
  · intro st key now v s hl hu
    simp only [FetchSegment, hl]
    by_cases hexp : s.ExpiredAt > 0 ∧ now ≥ s.ExpiredAt
    · rw [if_pos hexp]
    · rw [if_neg hexp, if_pos hu]

/-- C6 witness: a freshly built text segment has a non-Unknown Kind. -/
theorem kind_unknown_reserved_witness :
    ({ Tombstone := 0, Type' := Kind.Text, ExpiredAt := 0, CreatedAt := 0,
        KeySize := 1, ValueSize := 2, Key := [107], Value := [1, 104] } : Segment).Type'
      ≠ Kind.Unknown :=
  (kind_unknown_reserved.1 idTransformer 0 [107] (Serializable.text (NewText [104])) 0
      { Tombstone := 0, Type' := Kind.Text, ExpiredAt := 0, CreatedAt := 0,
        KeySize := 1, ValueSize := 2, Key := [107], Value := [1, 104] }
      (Or.inl (by decide))).2.1

theorem validatePort_none_iff (p : Int) :
    validatePort p = none ↔ 1025 ≤ p ∧ p ≤ 65534 := by
  unfold validatePort
  split_ifs with h <;> simp <;> omega

theorem validatePath_none_iff (p : String) : validatePath p = none ↔ p ≠ "" := by
  unfold validatePath
  split_ifs with h <;> simp [h]

theorem validatePassword_none_iff (p : String) :
    validatePassword p = none ↔ p ≠ "" := by
  unfold validatePassword
  split_ifs with h <;> simp [h]

theorem validateEncryptor_none_iff (e : Encryptor) :
    validateEncryptor e = none ↔
      (e.Enable = false ∨ e.Secret.utf8ByteSize = 16 ∨
        e.Secret.utf8ByteSize = 24 ∨ e.Secret.utf8ByteSize = 32) := by
  unfold validateEncryptor validKeyLength
  cases hE : e.Enable <;> split_ifs <;> simp_all <;> tauto

theorem Vaildated_none_chain (opt : ServerOptions) :
    Vaildated opt = none ↔
      validatePort opt.Port = none ∧ validatePath opt.Path = none ∧
        validatePassword opt.Password = none ∧
          validateEncryptor opt.Encryptor = none := by
  unfold Vaildated
  cases h1 : validatePort opt.Port <;> cases h2 : validatePath opt.Path <;>
    cases h3 : validatePassword opt.Password <;> simp

/-- C7: configuration validation succeeds exactly when the port lies in
[1025, 65534], the data path and auth password are non-empty, and the
encryptor is disabled or its secret is exactly 16, 24 or 32 bytes; any
other configuration yields an error. -/
theorem Vaildated_ok_iff (opt : ServerOptions) :
    Vaildated opt = none ↔
      (1025 ≤ opt.Port ∧ opt.Port ≤ 65534 ∧ opt.Path ≠ "" ∧ opt.Password ≠ "" ∧
        (opt.Encryptor.Enable = false ∨ opt.Encryptor.Secret.utf8ByteSize = 16 ∨
          opt.Encryptor.Secret.utf8ByteSize = 24 ∨
            opt.Encryptor.Secret.utf8ByteSize = 32)) := by
  rw [Vaildated_none_chain, validatePort_none_iff, validatePath_none_iff,
    validatePassword_none_iff, validateEncryptor_none_iff]
  tauto

/-- C8 counterexample: the empty key is not rejected on the write path —
`NewSegment` with key `""` succeeds and returns a live record with
`KeySize = 0`. -/
theorem empty_key_accepted_counterexample :
    NewSegment idTransformer 0 [] (Serializable.text (NewText [104])) 0
      = Except.ok
          { Tombstone := 0, Type' := Kind.Text, ExpiredAt := 0, CreatedAt := 0,
            KeySize := 0, ValueSize := 2, Key := [], Value := [1, 104] } := by
  decide

/-- C8 (amended): the segment constructors perform no key validation:
whenever serialization and transform succeed, `NewSegment` and
`AcquirePoolSegment` on the empty key succeed and produce a live record
with `KeySize = 0` (no rejection happens at record construction). -/
theorem empty_key_not_rejected (tf : Bytes → Except String Bytes) (now : Nat)
    (data : Serializable) (ttl : Nat) (enc : Bytes) (pooled : Segment)
    (htf : tf (encodeContent data) = Except.ok enc) :
    NewSegment tf now [] data ttl
        = Except.ok
            { Tombstone := 0, Type' := toKind data
              ExpiredAt := if ttl > 0 then (now + ttl * 1000000000) % 2 ^ 64 else 0
              CreatedAt := now % 2 ^ 64, KeySize := 0
              ValueSize := enc.length % 2 ^ 32, Key := [], Value := enc } ∧
      AcquirePoolSegment tf now pooled [] data ttl = NewSegment tf now [] data ttl := by
  refine ⟨?_, AcquirePoolSegment_eq_NewSegment tf now pooled [] data ttl⟩
  rw [NewSegment_eq, htf]
  rfl

/-- C8 witness: empty key, text payload, identity transform. -/
theorem empty_key_not_rejected_witness :
    NewSegment idTransformer 0 [] (Serializable.text (NewText [104])) 0
        = Except.ok
            { Tombstone := 0, Type' := Kind.Text, ExpiredAt := 0, CreatedAt := 0,
              KeySize := 0, ValueSize := 2, Key := [], Value := [1, 104] } ∧
      AcquirePoolSegment idTransformer 0 zeroSegment []
          (Serializable.text (NewText [104])) 0
        = NewSegment idTransformer 0 [] (Serializable.text (NewText [104])) 0 := by
  have h := empty_key_not_rejected idTransformer 0 (Serializable.text (NewText [104]))
    0 [1, 104] zeroSegment (by decide)
  exact ⟨h.1.trans (by decide), h.2⟩

/-- C9 (amended): releasing a pooled value clears its contents — each
typed Clear returns the fresh value; `Segment.Clear` zeroes all fields
except the Kind, which the source leaves untouched — and no prior field
content is observable through `AcquirePoolSegment`, whose result is
independent of the pooled value because it assigns all eight fields. -/
theorem pool_release_resets_fields :
    (∀ s : Set, s.Clear = NewSet) ∧
      (∀ z : ZSet, z.Clear = NewZSet) ∧
        (∀ t : Text, t.Clear = NewText []) ∧
          (∀ tab : Table, tab.Clear = NewTable) ∧
            (∀ n : Number, n.Clear = NewNumber 0) ∧
              (∀ c : Collection, c.Clear = NewCollection) ∧
                (∀ s : Segment, s.Clear = { zeroSegment with Type' := s.Type' }) ∧
                  ∀ (tf : Bytes → Except String Bytes) (now : Nat) (p1 p2 : Segment)
                      (key : Bytes) (data : Serializable) (ttl : Nat),
                    AcquirePoolSegment tf now p1 key data ttl
                      = AcquirePoolSegment tf now p2 key data ttl :=
  ⟨fun _ => rfl, fun _ => rfl, fun _ => rfl, fun _ => rfl, fun _ => rfl, fun _ => rfl,
    fun _ => rfl, fun _ _ _ _ _ _ _ => rfl⟩

/-- C9 counterexample: `Segment.Clear` does not reset the Kind: clearing a
Text-kind segment leaves Kind = Text, so the released segment is not equal
to a fresh zero segment. -/
theorem Segment_Clear_keeps_kind_counterexample :
    (Segment.Clear { zeroSegment with Type' := Kind.Text, ExpiredAt := 7 }).Type'
        = Kind.Text ∧
      Segment.Clear { zeroSegment with Type' := Kind.Text, ExpiredAt := 7 }
        ≠ zeroSegment := by
  decide

/-- C10 (code bug): after package `types` initialisation, `zsetPools`
contains the ten `*Set` values stored by the init of the file defining
`Set`, and the type assertion in `AcquireZSet` panics on such a value
instead of returning a `*ZSet`. -/
theorem AcquireZSet_panics_on_polluted_pool :
    ZSetPoolItem.setItem NewSet ∈ zsetPoolsAfterInit ∧
      AcquireZSet (ZSetPoolItem.setItem NewSet) = none := by
  decide

theorem beBytes_length (w n : Nat) : (beBytes w n).length = w := by
  induction w generalizing n with
  | zero => rfl
  | succ w ih => simp [beBytes, ih]

theorem beVal_append_singleton (l : Bytes) (b : Nat) :
    beVal (l ++ [b]) = beVal l * 256 + b := by
  simp [beVal, List.foldl_append]

theorem beVal_beBytes (w n : Nat) (h : n < 256 ^ w) : beVal (beBytes w n) = n := by
  induction w generalizing n with
  | zero =>
    have : n = 0 := by simpa using h
    simp [this, beBytes, beVal]
  | succ w ih =>
    have hdiv : n / 256 < 256 ^ w := by
      rw [pow_succ, Nat.mul_comm] at h
      exact Nat.div_lt_of_lt_mul h
    rw [beBytes, beVal_append_singleton, ih (n / 256) hdiv]
    omega

theorem read_bb {w n : Nat} (rest : Bytes) (h : n < 256 ^ w) :
    beVal ((beBytes w n ++ rest).take w) = n := by
  rw [List.take_left' (beBytes_length w n)]
  exact beVal_beBytes w n h

theorem drop_bb {w n : Nat} {rest : Bytes} : (beBytes w n ++ rest).drop w = rest :=
  List.drop_left' (beBytes_length w n)

theorem take_bb_self (w n : Nat) : (beBytes w n).take w = beBytes w n := by
  have h := beBytes_length w n
  calc (beBytes w n).take w = (beBytes w n).take (beBytes w n).length := by rw [h]
    _ = beBytes w n := List.take_length _

theorem byteToKind_kindToByte (k : Kind) : byteToKind (kindToByte k) = some k := by
  cases k <;> rfl

theorem crc32_lt (l : Bytes) : crc32 l < 256 ^ 4 := by
  have h32 : crc32 l < 2 ^ 32 := Nat.mod_lt _ (by norm_num)
  calc crc32 l < 2 ^ 32 := h32
    _ = 256 ^ 4 := by norm_num

/-- C1: for every record meeting the size limits of the data model,
parsing the framed encoding returns the record unchanged:
`parse (frame r) = ok r`. -/
theorem parse_frame (s : Segment) (hwf : wellFormed s) :
    parse (frame s) = Except.ok s := by
  obtain ⟨h1, h2, h3, h4, h5, h6, h7, -, -⟩ := hwf
  have hkb : kindToByte s.Type' < 256 := by cases s.Type' <;> decide
  have hb1 : s.Tombstone < 256 ^ 1 := by simpa using h1
  have hb2 : kindToByte s.Type' < 256 ^ 1 := by simpa using hkb
  have hb3 : s.ExpiredAt < 256 ^ 8 := by
    calc s.ExpiredAt < 2 ^ 64 := h2
      _ = 256 ^ 8 := by norm_num
  have hb4 : s.CreatedAt < 256 ^ 8 := by
    calc s.CreatedAt < 2 ^ 64 := h3
      _ = 256 ^ 8 := by norm_num
  have hb5 : s.KeySize < 256 ^ 4 := by
    rw [h4]
    calc s.Key.length < 2 ^ 32 := h6
      _ = 256 ^ 4 := by norm_num
  have hb6 : s.ValueSize < 256 ^ 4 := by
    rw [h5]
    calc s.Value.length < 2 ^ 32 := h7
      _ = 256 ^ 4 := by norm_num
  have hflen : (frame s).length = 30 + s.Key.length + s.Value.length := by
    simp only [frame, List.length_append, beBytes_length]
    omega
  have hA : ¬ (frame s).length < 26 := by omega
  unfold parse
  rw [if_neg hA]
  simp only [frame]
  generalize hA1 : beBytes 1 s.Tombstone = a
  generalize hA2 : beBytes 1 (kindToByte s.Type') = b
  generalize hA3 : beBytes 8 s.ExpiredAt = c
  generalize hA4 : beBytes 8 s.CreatedAt = d
  generalize hA5 : beBytes 4 s.KeySize = e
  generalize hA6 : beBytes 4 s.ValueSize = f
  generalize hCV : crc32 (a ++ (b ++ (c ++ (d ++ (e ++ (f ++ (s.Key ++ s.Value))))))) = cv
  have l1 : a.length = 1 := by rw [← hA1, beBytes_length]
  have l2 : b.length = 1 := by rw [← hA2, beBytes_length]
  have l3 : c.length = 8 := by rw [← hA3, beBytes_length]
  have l4 : d.length = 8 := by rw [← hA4, beBytes_length]
  have l5 : e.length = 4 := by rw [← hA5, beBytes_length]
  have l6 : f.length = 4 := by rw [← hA6, beBytes_length]
  have hcvlt : cv < 256 ^ 4 := by rw [← hCV]; exact crc32_lt _
  have v1 : beVal a = s.Tombstone := by rw [← hA1]; exact beVal_beBytes 1 _ hb1
  have v2 : beVal b = kindToByte s.Type' := by
    rw [← hA2]; exact beVal_beBytes 1 _ hb2
  have v3 : beVal c = s.ExpiredAt := by rw [← hA3]; exact beVal_beBytes 8 _ hb3
  have v4 : beVal d = s.CreatedAt := by rw [← hA4]; exact beVal_beBytes 8 _ hb4
  have v5 : beVal e = s.KeySize := by rw [← hA5]; exact beVal_beBytes 4 _ hb5
  have v6 : beVal f = s.ValueSize := by rw [← hA6]; exact beVal_beBytes 4 _ hb6
  simp only [List.append_assoc]
  rw [List.take_left' l1, List.drop_left' l1, v1]
  rw [List.take_left' l2, List.drop_left' l2, v2]
  rw [List.take_left' l3, List.drop_left' l3, v3]
  rw [List.take_left' l4, List.drop_left' l4, v4]
  rw [List.take_left' l5, List.drop_left' l5, v5]
  rw [List.take_left' l6, List.drop_left' l6, v6]
  rw [if_neg (show ¬ (s.Key ++ (s.Value ++ beBytes 4 cv)).length
      < s.KeySize + s.ValueSize + 4 by
    simp only [List.length_append, beBytes_length]
    omega)]
  rw [List.take_left' h4.symm, List.drop_left' h4.symm,
    List.take_left' h5.symm, List.drop_left' h5.symm]
  rw [take_bb_self, beVal_beBytes 4 _ hcvlt]
  have hTP : (a ++ (b ++ (c ++ (d ++ (e ++ (f ++ (s.Key ++ (s.Value ++
      beBytes 4 cv)))))))).take (26 + s.KeySize + s.ValueSize)
      = a ++ (b ++ (c ++ (d ++ (e ++ (f ++ (s.Key ++ s.Value)))))) := by
    have hsp : a ++ (b ++ (c ++ (d ++ (e ++ (f ++ (s.Key ++ (s.Value ++
        beBytes 4 cv)))))))
        = (a ++ (b ++ (c ++ (d ++ (e ++ (f ++ (s.Key ++ s.Value))))))) ++
            beBytes 4 cv := by
      simp [List.append_assoc]
    rw [hsp]
    apply List.take_left'
    simp only [List.length_append, l1, l2, l3, l4, l5, l6]
    omega
  rw [hTP, hCV, if_neg (not_not_intro rfl), byteToKind_kindToByte]

/-- C1 witness: a concrete well-formed one-byte-key record round-trips. -/
theorem parse_frame_witness :
    wellFormed
        { Tombstone := 0, Type' := Kind.Text, ExpiredAt := 0, CreatedAt := 0,
          KeySize := 1, ValueSize := 1, Key := [107], Value := [1] } ∧
      parse (frame
          { Tombstone := 0, Type' := Kind.Text, ExpiredAt := 0, CreatedAt := 0,
            KeySize := 1, ValueSize := 1, Key := [107], Value := [1] })
        = Except.ok
            { Tombstone := 0, Type' := Kind.Text, ExpiredAt := 0, CreatedAt := 0,
              KeySize := 1, ValueSize := 1, Key := [107], Value := [1] } :=
  ⟨by decide,
    parse_frame
      { Tombstone := 0, Type' := Kind.Text, ExpiredAt := 0, CreatedAt := 0,
        KeySize := 1, ValueSize := 1, Key := [107], Value := [1] }
      (by decide)⟩

end WireDB
